import Mathlib

/-!
Shallow embedding of the VMware Event-ID-2004 monitor
(`event_checker.py`, `vm_manager.py`, `main.py`, `config.py`).

Timestamps live on a rational timeline of seconds (the ordinal timeline of
the Python `datetime` values); `datetime.now()` becomes an explicit
`now : ℚ` parameter.  The `strptime(_, '%Y-%m-%d %H:%M:%S')` call is
embedded as an executable parser returning `Option ℚ` (`none` models the
`ValueError` branch).  External `vmrun` invocations are modelled by
environments that record the `(success, output)` pair each call would
return.
-/

/-- Value of a decimal digit character. -/
def digitVal (c : Char) : Nat :=
  c.toNat - 48

/-- Decimal digits to the number they denote. -/
def digitsToNat (cs : List Char) : Nat :=
  cs.foldl (fun n c => n * 10 + digitVal c) 0

/-- The character class `\s` of CPython's `re` on `str` patterns
(`Py_UNICODE_ISSPACE`): ASCII whitespace and control separators plus the
Unicode space characters. -/
def isPyWhitespace (c : Char) : Bool :=
  let n := c.toNat
  (9 ≤ n ∧ n ≤ 13) ∨ (28 ≤ n ∧ n ≤ 31) ∨ n = 32 ∨ n = 133 ∨ n = 160 ∨
    n = 5760 ∨ (8192 ≤ n ∧ n ≤ 8202) ∨ n = 8232 ∨ n = 8233 ∨ n = 8239 ∨
    n = 8287 ∨ n = 12288

/-- Gregorian leap-year test, as used by `datetime`. -/
def isLeapYear (y : Nat) : Bool :=
  y % 4 == 0 && (y % 100 != 0 || y % 400 == 0)

/-- Days in month `m` (1-12) of year `y`, as validated by the
`datetime` constructor. -/
def daysInMonth (y m : Nat) : Nat :=
  if m = 2 then (if isLeapYear y then 29 else 28)
  else if m = 4 ∨ m = 6 ∨ m = 9 ∨ m = 11 then 30
  else 31

/-- Days in all full years before year `y` (proleptic Gregorian,
`datetime.toordinal` convention). -/
def daysBeforeYear (y : Nat) : Nat :=
  (y - 1) * 365 + (y - 1) / 4 - (y - 1) / 100 + (y - 1) / 400

/-- Days in the full months of year `y` before month `m`. -/
def daysBeforeMonth (y m : Nat) : Nat :=
  (List.range m).foldl (fun acc i => if 1 ≤ i then acc + daysInMonth y i else acc) 0

/-- A parsed `%Y-%m-%d %H:%M:%S` timestamp (a `datetime` value). -/
structure DateTime where
  year : Nat
  month : Nat
  day : Nat
  hour : Nat
  minute : Nat
  second : Nat
deriving DecidableEq, Repr

/-- Seconds since 0001-01-01 00:00:00, the linear timeline on which
`datetime` subtraction and comparison operate. -/
def DateTime.toSeconds (dt : DateTime) : Nat :=
  ((daysBeforeYear dt.year + daysBeforeMonth dt.year dt.month + (dt.day - 1)) * 24
      + dt.hour) * 3600 + dt.minute * 60 + dt.second

/-- `%Y` directive: `\d\d\d\d`, exactly four decimal digits.  Digits are
modelled as the ASCII digits. -/
def matchY : List Char → List (Nat × List Char)
  | a :: b :: c :: d :: rest =>
    if a.isDigit ∧ b.isDigit ∧ c.isDigit ∧ d.isDigit then
      [(digitsToNat [a, b, c, d], rest)]
    else []
  | _ => []

/-- A literal character of the format string. -/
def matchLit (ch : Char) : List Char → List (List Char)
  | c :: rest => if c = ch then [rest] else []
  | [] => []

/-- `%m` directive: `1[0-2]|0[1-9]|[1-9]`, candidates in regex preference
order. -/
def matchm (cs : List Char) : List (Nat × List Char) :=
  (match cs with
    | '1' :: c :: rest =>
      if '0' ≤ c ∧ c ≤ '2' then [(10 + digitVal c, rest)] else []
    | _ => []) ++
  (match cs with
    | '0' :: c :: rest =>
      if '1' ≤ c ∧ c ≤ '9' then [(digitVal c, rest)] else []
    | _ => []) ++
  (match cs with
    | c :: rest =>
      if '1' ≤ c ∧ c ≤ '9' then [(digitVal c, rest)] else []
    | _ => [])

/-- `%d` directive: `3[01]|[12]\d|0[1-9]|[1-9]| [1-9]`, candidates in
regex preference order (the last alternative is the space-padded day). -/
def matchd (cs : List Char) : List (Nat × List Char) :=
  (match cs with
    | '3' :: c :: rest =>
      if '0' ≤ c ∧ c ≤ '1' then [(30 + digitVal c, rest)] else []
    | _ => []) ++
  (match cs with
    | c :: c2 :: rest =>
      if ('1' ≤ c ∧ c ≤ '2') ∧ c2.isDigit then
        [(10 * digitVal c + digitVal c2, rest)]
      else []
    | _ => []) ++
  (match cs with
    | '0' :: c :: rest =>
      if '1' ≤ c ∧ c ≤ '9' then [(digitVal c, rest)] else []
    | _ => []) ++
  (match cs with
    | c :: rest =>
      if '1' ≤ c ∧ c ≤ '9' then [(digitVal c, rest)] else []
    | _ => []) ++
  (match cs with
    | ' ' :: c :: rest =>
      if '1' ≤ c ∧ c ≤ '9' then [(digitVal c, rest)] else []
    | _ => [])

/-- `\s+` (the format's blank is compiled to one-or-more whitespace):
candidate remainders, greedy (longest consumption) first. -/
def matchWs : List Char → List (List Char)
  | c :: rest => if isPyWhitespace c then matchWs rest ++ [rest] else []
  | [] => []

/-- `%H` directive: `2[0-3]|[0-1]\d|\d`, candidates in regex preference
order. -/
def matchH (cs : List Char) : List (Nat × List Char) :=
  (match cs with
    | '2' :: c :: rest =>
      if '0' ≤ c ∧ c ≤ '3' then [(20 + digitVal c, rest)] else []
    | _ => []) ++
  (match cs with
    | c :: c2 :: rest =>
      if ('0' ≤ c ∧ c ≤ '1') ∧ c2.isDigit then
        [(10 * digitVal c + digitVal c2, rest)]
      else []
    | _ => []) ++
  (match cs with
    | c :: rest => if c.isDigit then [(digitVal c, rest)] else []
    | _ => [])

/-- `%M` directive: `[0-5]\d|\d`, candidates in regex preference order. -/
def matchM (cs : List Char) : List (Nat × List Char) :=
  (match cs with
    | c :: c2 :: rest =>
      if ('0' ≤ c ∧ c ≤ '5') ∧ c2.isDigit then
        [(10 * digitVal c + digitVal c2, rest)]
      else []
    | _ => []) ++
  (match cs with
    | c :: rest => if c.isDigit then [(digitVal c, rest)] else []
    | _ => [])

/-- `%S` directive: `6[0-1]|[0-5]\d|\d`, candidates in regex preference
order. -/
def matchS (cs : List Char) : List (Nat × List Char) :=
  (match cs with
    | '6' :: c :: rest =>
      if '0' ≤ c ∧ c ≤ '1' then [(60 + digitVal c, rest)] else []
    | _ => []) ++
  (match cs with
    | c :: c2 :: rest =>
      if ('0' ≤ c ∧ c ≤ '5') ∧ c2.isDigit then
        [(10 * digitVal c + digitVal c2, rest)]
      else []
    | _ => []) ++
  (match cs with
    | c :: rest => if c.isDigit then [(digitVal c, rest)] else []
    | _ => [])

/-- Backtracking match of the compiled pattern
`\d\d\d\d-(1[0-2]|0[1-9]|[1-9])-(3[01]|[12]\d|0[1-9]|[1-9]| [1-9])\s+
(2[0-3]|[0-1]\d|\d):([0-5]\d|\d):(6[0-1]|[0-5]\d|\d)` against the head of
the string, alternatives tried in preference order exactly as CPython's
regex engine does (`re.match`, so the end of the string is not anchored):
the first complete-pattern match wins, together with the unconsumed
remainder. -/
def strptimeMatch (cs : List Char) :
    Option (Nat × Nat × Nat × Nat × Nat × Nat × List Char) :=
  (matchY cs).findSome? fun (y, r1) =>
  (matchLit '-' r1).findSome? fun r2 =>
  (matchm r2).findSome? fun (m, r3) =>
  (matchLit '-' r3).findSome? fun r4 =>
  (matchd r4).findSome? fun (d, r5) =>
  (matchWs r5).findSome? fun r6 =>
  (matchH r6).findSome? fun (h, r7) =>
  (matchLit ':' r7).findSome? fun r8 =>
  (matchM r8).findSome? fun (mi, r9) =>
  (matchLit ':' r9).findSome? fun r10 =>
  (matchS r10).findSome? fun (sec, r11) =>
  some (y, m, d, h, mi, sec, r11)

/-- `datetime.strptime(s, '%Y-%m-%d %H:%M:%S')`: `none` models the
`ValueError` raised when the regex does not match, when unconverted data
remains after the match, or when the `datetime` constructor rejects the
matched fields (year 0, day beyond the month's length, or a leap-second
value 60/61 that the `%S` pattern admits). -/
def strptimeYmdHms (s : String) : Option DateTime :=
  match strptimeMatch s.toList with
  | none => none
  | some (y, m, d, h, mi, sec, rest) =>
    if rest = [] ∧ 1 ≤ y ∧ d ≤ daysInMonth y m ∧ sec ≤ 59 then
      some ⟨y, m, d, h, mi, sec⟩
    else
      none

/-- The parsed event time placed on the rational second timeline. -/
def parseEventTime (s : String) : Option ℚ :=
  (strptimeYmdHms s).map (fun dt => (dt.toSeconds : ℚ))

/-- `os.path.basename`: the suffix after the last path separator. -/
def basenameChars : List Char → List Char → List Char
  | acc, [] => acc.reverse
  | acc, c :: cs => if c = '/' ∨ c = '\\' then basenameChars [] cs else basenameChars (c :: acc) cs

/-- `str.replace('.vmx', '')`: drop every (non-overlapping, leftmost-first)
occurrence of `.vmx`. -/
def stripVmx : List Char → List Char
  | '.' :: 'v' :: 'm' :: 'x' :: cs => stripVmx cs
  | c :: cs => c :: stripVmx cs
  | [] => []

/-- `EventChecker._get_vm_name_from_path`: basename with every `.vmx`
occurrence removed. -/
def get_vm_name_from_path (vm_path : String) : String :=
  (stripVmx (basenameChars [] vm_path.toList)).asString

/-- The mutable state of an `EventChecker` instance:
`latest_event_time` (a raw string or `None`) and the
`vm_restart_times` dict keyed by VM name. -/
structure EventChecker where
  latest_event_time : Option String
  vm_restart_times : List (String × ℚ)
deriving DecidableEq, Repr

/-- Dict read: first binding for the key wins (bindings are prepended). -/
def EventChecker.lastRestart (st : EventChecker) (vm_name : String) : Option ℚ :=
  st.vm_restart_times.lookup vm_name

/-- `EventChecker.should_restart_vm`.  `threshold` is
`Config.RESTART_TIME_THRESHOLD_MINUTES`; `now` is `datetime.now()`.
The `if s = ""` branch mirrors Python's falsiness of the empty string in
`if not self.latest_event_time`. -/
def should_restart_vm (threshold : Int) (st : EventChecker) (now : ℚ)
    (vm_path : String) : Bool :=
  match st.latest_event_time with
  | none => false
  | some s =>
    if s = "" then false
    else
      match parseEventTime s with
      | none => false
      | some event_time =>
        let time_diff : ℚ := (now - event_time) / 60
        if time_diff > (threshold : ℚ) then false
        else
          let vm_name := get_vm_name_from_path vm_path
          match EventChecker.lastRestart st vm_name with
          | some last_restart => if last_restart ≥ event_time then false else true
          | none => true

/-- `EventChecker.mark_vm_restarted`: record `datetime.now()` as the last
restart instant for this VM. -/
def mark_vm_restarted (st : EventChecker) (now : ℚ) (vm_path : String) : EventChecker :=
  { st with vm_restart_times := (get_vm_name_from_path vm_path, now) :: st.vm_restart_times }

/-- `pat` is a prefix of `cs` (character-by-character). -/
def charsPrefix : List Char → List Char → Bool
  | [], _ => true
  | _ :: _, [] => false
  | a :: pat, b :: cs => a = b && charsPrefix pat cs

/-- `pat` occurs as a contiguous run inside `cs`. -/
def charsInfix (pat : List Char) : List Char → Bool
  | [] => pat.isEmpty
  | c :: cs => charsPrefix pat (c :: cs) || charsInfix pat cs

/-- `pat in out.lower()`: case-insensitive substring test, as used for the
`vmrun` error-text sniffing. -/
def lowerContains (out pat : String) : Bool :=
  charsInfix pat.toList (out.toList.map Char.toLower)

/-- The `(success, output)` pair returned by
`VMManager._run_vmrun_command`. -/
structure CmdResult where
  success : Bool
  output : String
deriving DecidableEq, Repr

/-- The results the external `vmrun` calls of one restart attempt would
return, in the order the attempt can issue them. -/
structure AttemptEnv where
  stopSoft : CmdResult
  stopHard : CmdResult
  startFast : CmdResult
  startStd : CmdResult
deriving DecidableEq, Repr

/-- The `vmrun` commands a restart attempt can issue (trace alphabet). -/
inductive VmCmd where
  | stopSoft
  | stopHard
  | listCheck
  | startFast
  | startStd
deriving DecidableEq, Repr

/-- Step 1 of `VMManager._restart_vm_single_attempt` (stop the VM):
result is whether the attempt proceeds past the stop step, paired with the
trace of commands issued. -/
def stopStep (env : AttemptEnv) : Bool × List VmCmd :=
  let r := env.stopSoft
  if r.success then (true, [VmCmd.stopSoft])
  else if lowerContains r.output "is not powered on" then
    (true, [VmCmd.stopSoft])
  else if lowerContains r.output "locked" || lowerContains r.output "busy" then
    let h := env.stopHard
    (h.success, [VmCmd.stopSoft, VmCmd.stopHard])
  else
    let h := env.stopHard
    (h.success, [VmCmd.stopSoft, VmCmd.stopHard])

/-- Step 2 of `VMManager._restart_vm_single_attempt` (wait for lock files):
the diagnostic `list` probes issued on alternate sub-intervals. -/
def waitStep (restartDelay lockCleanupDelay : Nat) : List VmCmd :=
  let total_wait := restartDelay + lockCleanupDelay
  let wait_intervals := max 1 (total_wait / 5)
  (List.range wait_intervals).foldl
    (fun acc i => if 0 < i ∧ i % 2 = 0 then acc ++ [VmCmd.listCheck] else acc) []

/-- Step 3 of `VMManager._restart_vm_single_attempt` (start the VM). -/
def startStep (env : AttemptEnv) : Bool × List VmCmd :=
  let r := env.startFast
  if r.success then (true, [VmCmd.startFast])
  else if lowerContains r.output "locked" || lowerContains r.output "busy" then
    let r2 := env.startStd
    (r2.success, [VmCmd.startFast, VmCmd.startStd])
  else if lowerContains r.output "timeout" then (false, [VmCmd.startFast])
  else (false, [VmCmd.startFast])

/-- `VMManager._restart_vm_single_attempt`: stop, wait, start; the Boolean
is the Python return value, the list is the trace of `vmrun` commands. -/
def restart_vm_single_attempt (restartDelay lockCleanupDelay : Nat)
    (env : AttemptEnv) : Bool × List VmCmd :=
  match stopStep env with
  | (false, tr) => (false, tr)
  | (true, tr) =>
    let wt := waitStep restartDelay lockCleanupDelay
    let (b, tr2) := startStep env
    (b, tr ++ wt ++ tr2)

/-- The retry loop of `VMManager.restart_vm`, unrolled from attempt number
`attempt` with `n` attempts remaining.  `envs i` is the external world the
`i`-th attempt observes.  Returns the Python return value paired with the
number of attempts actually made. -/
def restart_vm_go (restartDelay lockCleanupDelay : Nat) (envs : Nat → AttemptEnv) :
    Nat → Nat → Bool × Nat
  | _, 0 => (false, 0)
  | attempt, n + 1 =>
    if (restart_vm_single_attempt restartDelay lockCleanupDelay (envs attempt)).1 then
      (true, 1)
    else
      let (b, c) := restart_vm_go restartDelay lockCleanupDelay envs (attempt + 1) n
      (b, c + 1)

/-- `VMManager.restart_vm`: up to `maxRetries` attempts, numbered from 1;
returns `(overall_success, attempts_made)`. -/
def restart_vm (restartDelay lockCleanupDelay maxRetries : Nat)
    (envs : Nat → AttemptEnv) : Bool × Nat :=
  restart_vm_go restartDelay lockCleanupDelay envs 1 maxRetries

/-- Outcome of the external stages of
`EventChecker._check_via_vmrun_script`: the `vmrun` PowerShell run can
time out or exit non-zero, the guest-to-host copy can fail, the artifact
read/JSON parse can fail, any other exception can occur, or all stages
succeed yielding the parsed `{count, latest_time}` record. -/
inductive VmrunProbeOutcome where
  | timeoutExpired
  | execFail
  | copyFail
  | readFail
  | excOther
  | ok (count : Nat) (latest_time : String)
deriving DecidableEq, Repr

/-- Any stage of the remote probe failed (every constructor except `ok`). -/
def VmrunProbeOutcome.isStageFailure : VmrunProbeOutcome → Bool
  | .ok _ _ => false
  | _ => true

/-- `EventChecker._check_via_vmrun_script`: `none` models the Python
`return None` taken on every stage failure; on success the method stores
the latest event time (with the `'None'` sentinel mapped to no value) and
reports whether `count > 0`. -/
def check_via_vmrun_script (o : VmrunProbeOutcome) (st : EventChecker) :
    Option Bool × EventChecker :=
  match o with
  | .ok count latest_time =>
    (some (decide (0 < count)),
      { st with latest_event_time :=
          if latest_time = "None" then none else some latest_time })
  | _ => (none, st)

/-- `EventChecker._check_via_simple_fallback`: always a definite
`False`. -/
def check_via_simple_fallback (st : EventChecker) : Option Bool × EventChecker :=
  (some false, st)

/-- `EventChecker.check_event_2004`: try the `vmrun`-script method, then
the simple fallback; the first definite answer wins, and if every method
fails the monitor assumes no events (`return False`). -/
def check_event_2004 (o : VmrunProbeOutcome) (st : EventChecker) :
    Bool × EventChecker :=
  match check_via_vmrun_script o st with
  | (some result, st1) => (result, st1)
  | (none, st1) =>
    match check_via_simple_fallback st1 with
    | (some result, st2) => (result, st2)
    | (none, st2) => (false, st2)

/-- The restart-and-record fragment of the `main` loop (`main.py`
lines 72-79): restart the VM and, only on overall success, mark it
restarted. -/
def main_handle_restart (restartDelay lockCleanupDelay maxRetries : Nat)
    (envs : Nat → AttemptEnv) (st : EventChecker) (now : ℚ) (vm_path : String) :
    Bool × EventChecker :=
  if (restart_vm restartDelay lockCleanupDelay maxRetries envs).1 then
    (true, mark_vm_restarted st now vm_path)
  else
    (false, st)

/-- C1: for every event timestamp `t` and configured threshold `T`,
`should_restart_vm` returns false whenever `now - t` exceeds `T` minutes,
regardless of the restart history for the VM. -/
theorem c1_stale_event_never_restarts (threshold : Int) (st : EventChecker)
    (now : ℚ) (vm_path s : String) (t : ℚ)
    (hs : st.latest_event_time = some s)
    (hp : parseEventTime s = some t)
    (hstale : (now - t) / 60 > (threshold : ℚ)) :
    should_restart_vm threshold st now vm_path = false := by
  unfold should_restart_vm
  rw [hs]
  by_cases hse : s = ""
  · simp [hse]
  · simp only [hse, if_false, hp]
    simp [hstale]

theorem c1_witness :
    ((7260 : ℚ) - 0) / 60 > ((2 : Int) : ℚ) ∧
    should_restart_vm 2 ⟨some "0001-01-01 00:00:00", [("b", 500)]⟩ 7260
      "C:\\vms\\a.vmx" = false :=
  ⟨by norm_num,
    c1_stale_event_never_restarts 2 ⟨some "0001-01-01 00:00:00", [("b", 500)]⟩ 7260
      "C:\\vms\\a.vmx" "0001-01-01 00:00:00" 0 rfl (by decide) (by norm_num)⟩

/-- C2: whenever the restart-history entry for the VM exists and is
greater than or equal to the parsed latest event time,
`should_restart_vm` returns false; a restart recorded at exactly the
event instant counts as already handled. -/
theorem c2_already_handled_no_restart (threshold : Int) (st : EventChecker)
    (now : ℚ) (vm_path s : String) (t r : ℚ)
    (hs : st.latest_event_time = some s)
    (hp : parseEventTime s = some t)
    (hr : st.lastRestart (get_vm_name_from_path vm_path) = some r)
    (hge : r ≥ t) :
    should_restart_vm threshold st now vm_path = false := by
  unfold should_restart_vm
  rw [hs]
  by_cases hse : s = ""
  · simp [hse]
  · simp only [hse, if_false, hp]
    by_cases hstale : (now - t) / 60 > (threshold : ℚ)
    · simp [hstale]
    · simp [hstale, hr, hge]

theorem c2_witness :
    EventChecker.lastRestart ⟨some "0001-01-01 00:00:01", [("a", 100)]⟩
      (get_vm_name_from_path "C:\\vms\\a.vmx") = some 100 ∧
    (100 : ℚ) ≥ 1 ∧
    should_restart_vm 2 ⟨some "0001-01-01 00:00:01", [("a", 100)]⟩ 1
      "C:\\vms\\a.vmx" = false :=
  ⟨by decide, by norm_num,
    c2_already_handled_no_restart 2 ⟨some "0001-01-01 00:00:01", [("a", 100)]⟩ 1
      "C:\\vms\\a.vmx" "0001-01-01 00:00:01" 1 100 rfl (by decide) (by decide)
      (by norm_num)⟩

/-- C8: with the latest event time equal to `now` and threshold 2
minutes, `should_restart_vm` returns true for a VM with no prior restart
record, and after `mark_vm_restarted` at `now` the same evaluation
returns false. -/
theorem c8_restart_then_dedup (st : EventChecker) (now : ℚ)
    (vm_path s : String) (t : ℚ)
    (hs : st.latest_event_time = some s)
    (hp : parseEventTime s = some t)
    (hnow : now = t)
    (hnone : st.lastRestart (get_vm_name_from_path vm_path) = none) :
    should_restart_vm 2 st now vm_path = true ∧
    should_restart_vm 2 (mark_vm_restarted st now vm_path) now vm_path = false := by
  have hse : s ≠ "" := by
    intro h
    rw [h] at hp
    exact Option.noConfusion hp
  have hfresh : (now - t) / 60 ≤ (2 : ℚ) := by
    rw [hnow, sub_self]
    norm_num
  constructor
  · unfold should_restart_vm
    rw [hs]
    simp only [hse, if_false, hp]
    simp only [EventChecker.lastRestart] at hnone
    simp [hfresh, EventChecker.lastRestart, hnone]
  · unfold should_restart_vm mark_vm_restarted
    simp only [hs, hse, if_false, hp]
    simp [hfresh, EventChecker.lastRestart, List.lookup, hnow]

theorem c8_witness :
    parseEventTime "0001-01-01 00:02:00" = some 120 ∧
    EventChecker.lastRestart ⟨some "0001-01-01 00:02:00", []⟩
      (get_vm_name_from_path "C:\\vms\\a.vmx") = none ∧
    (should_restart_vm 2 ⟨some "0001-01-01 00:02:00", []⟩ 120 "C:\\vms\\a.vmx" = true ∧
      should_restart_vm 2
        (mark_vm_restarted ⟨some "0001-01-01 00:02:00", []⟩ 120 "C:\\vms\\a.vmx")
        120 "C:\\vms\\a.vmx" = false) :=
  ⟨by decide, by decide,
    c8_restart_then_dedup ⟨some "0001-01-01 00:02:00", []⟩ 120 "C:\\vms\\a.vmx"
      "0001-01-01 00:02:00" 120 rfl (by decide) rfl (by decide)⟩

/-- C9: when the stored latest event time string does not parse in the
`%Y-%m-%d %H:%M:%S` format, `should_restart_vm` returns false (the
`ValueError` is caught and mapped to a no-restart decision). -/
theorem c9_unparseable_time_no_restart (threshold : Int) (st : EventChecker)
    (now : ℚ) (vm_path s : String)
    (hs : st.latest_event_time = some s)
    (hp : parseEventTime s = none) :
    should_restart_vm threshold st now vm_path = false := by
  unfold should_restart_vm
  rw [hs]
  by_cases hse : s = ""
  · simp [hse]
  · simp [hse, hp]

theorem c9_witness :
    parseEventTime "999-12-31 23:59:59" = none ∧
    should_restart_vm 2 ⟨some "999-12-31 23:59:59", []⟩ 0 "C:\\vms\\a.vmx" = false :=
  ⟨by decide,
    c9_unparseable_time_no_restart 2 ⟨some "999-12-31 23:59:59", []⟩ 0 "C:\\vms\\a.vmx"
      "999-12-31 23:59:59" rfl (by decide)⟩

/-- C4: any probe-stage failure (PowerShell run failing or timing out,
guest-to-host copy failing, artifact read/parse failing, or any other
exception) makes `check_event_2004` report `false` — callers never
observe a hard failure, and the checker state is left as the failing
stage left it. -/
theorem c4_probe_failure_reports_not_found (o : VmrunProbeOutcome)
    (st : EventChecker) (h : o.isStageFailure = true) :
    check_event_2004 o st = (false, st) := by
  cases o with
  | timeoutExpired => rfl
  | execFail => rfl
  | copyFail => rfl
  | readFail => rfl
  | excOther => rfl
  | ok count latest_time => simp [VmrunProbeOutcome.isStageFailure] at h

theorem c4_witness :
    VmrunProbeOutcome.isStageFailure .copyFail = true ∧
    check_event_2004 .copyFail ⟨some "0001-01-01 00:00:00", []⟩ =
      (false, ⟨some "0001-01-01 00:00:00", []⟩) :=
  ⟨rfl, c4_probe_failure_reports_not_found .copyFail ⟨some "0001-01-01 00:00:00", []⟩ rfl⟩

/-- The stop step issues the soft stop alone or the soft stop followed by
the hard stop. -/
theorem stopStep_trace_cases (env : AttemptEnv) :
    (stopStep env).2 = [VmCmd.stopSoft] ∨
    (stopStep env).2 = [VmCmd.stopSoft, VmCmd.stopHard] := by
  unfold stopStep
  by_cases h1 : env.stopSoft.success = true
  · simp [h1]
  · simp only [Bool.not_eq_true] at h1
    by_cases h2 : lowerContains env.stopSoft.output "is not powered on" = true
    · simp [h1, h2]
    · simp only [Bool.not_eq_true] at h2
      by_cases h3 : (lowerContains env.stopSoft.output "locked" ||
          lowerContains env.stopSoft.output "busy") = true
      · simp [h1, h2, h3]
      · simp only [Bool.not_eq_true] at h3
        simp [h1, h2, h3]

/-- The start step issues the fast start alone or the fast start followed
by the standard start. -/
theorem startStep_trace_cases (env : AttemptEnv) :
    (startStep env).2 = [VmCmd.startFast] ∨
    (startStep env).2 = [VmCmd.startFast, VmCmd.startStd] := by
  unfold startStep
  by_cases h1 : env.startFast.success = true
  · simp [h1]
  · simp only [Bool.not_eq_true] at h1
    by_cases h2 : (lowerContains env.startFast.output "locked" ||
        lowerContains env.startFast.output "busy") = true
    · simp [h1, h2]
    · simp only [Bool.not_eq_true] at h2
      by_cases h3 : lowerContains env.startFast.output "timeout" = true
      · simp [h1, h2, h3]
      · simp only [Bool.not_eq_true] at h3
        simp [h1, h2, h3]

/-- The wait step issues only diagnostic `list` probes. -/
theorem waitStep_only_listCheck (restartDelay lockCleanupDelay : Nat) :
    ∀ c ∈ waitStep restartDelay lockCleanupDelay, c = VmCmd.listCheck := by
  have key : ∀ (l : List Nat) (acc : List VmCmd),
      (∀ c ∈ acc, c = VmCmd.listCheck) →
      ∀ c ∈ l.foldl
        (fun acc i => if 0 < i ∧ i % 2 = 0 then acc ++ [VmCmd.listCheck] else acc) acc,
        c = VmCmd.listCheck := by
    intro l
    induction l with
    | nil => intro acc h; exact h
    | cons x xs ih =>
      intro acc h c hc
      rw [List.foldl_cons] at hc
      refine ih _ ?_ c hc
      intro d hd
      have hd' : d ∈ (if 0 < x ∧ x % 2 = 0 then acc ++ [VmCmd.listCheck] else acc) := hd
      by_cases hx : 0 < x ∧ x % 2 = 0
      · rw [if_pos hx] at hd'
        rcases List.mem_append.mp hd' with hd'' | hd''
        · exact h d hd''
        · simpa using hd''
      · rw [if_neg hx] at hd'
        exact h d hd'
  intro c hc
  exact key (List.range (max 1 ((restartDelay + lockCleanupDelay) / 5))) []
    (by intro d hd; cases hd) c hc

/-- The standard-start command never appears in the stop or wait traces. -/
theorem startStd_count_stop_wait (rd ld : Nat) (env : AttemptEnv) :
    (stopStep env).2.count VmCmd.startStd = 0 ∧
    (waitStep rd ld).count VmCmd.startStd = 0 := by
  constructor
  · rcases stopStep_trace_cases env with h | h <;> rw [h] <;> decide
  · rw [List.count_eq_zero]
    intro hmem
    have := waitStep_only_listCheck rd ld _ hmem
    cases this

/-- C6: once the stop step has succeeded, a lock/busy response to the
fast start triggers exactly one retry with the standard start variant
(the attempt then succeeds or fails with that retry), while an explicit
timeout response fails the attempt with no standard-start retry. -/
theorem c6_start_lock_retry_once (rd ld : Nat) (env : AttemptEnv)
    (hstop : (stopStep env).1 = true) :
    ((env.startFast.success = false →
      (lowerContains env.startFast.output "locked" ||
        lowerContains env.startFast.output "busy") = true →
      (restart_vm_single_attempt rd ld env).1 = env.startStd.success ∧
        (restart_vm_single_attempt rd ld env).2.count VmCmd.startStd = 1) ∧
    (env.startFast.success = false →
      (lowerContains env.startFast.output "locked" ||
        lowerContains env.startFast.output "busy") = false →
      lowerContains env.startFast.output "timeout" = true →
      (restart_vm_single_attempt rd ld env).1 = false ∧
        (restart_vm_single_attempt rd ld env).2.count VmCmd.startStd = 0)) := by
  rcases hst : stopStep env with ⟨b, tr⟩
  have hb : b = true := by rw [hst] at hstop; exact hstop
  subst hb
  have hattempt : restart_vm_single_attempt rd ld env =
      ((startStep env).1, tr ++ waitStep rd ld ++ (startStep env).2) := by
    unfold restart_vm_single_attempt
    rw [hst]
  have htr0 : tr.count VmCmd.startStd = 0 := by
    have := (startStd_count_stop_wait rd ld env).1
    rw [hst] at this
    exact this
  have hwt0 : (waitStep rd ld).count VmCmd.startStd = 0 :=
    (startStd_count_stop_wait rd ld env).2
  constructor
  · intro h1 h2
    have hss : startStep env = (env.startStd.success,
        [VmCmd.startFast, VmCmd.startStd]) := by
      unfold startStep
      simp [h1, h2]
    rw [hattempt, hss]
    constructor
    · rfl
    · simp [List.count_append, htr0, hwt0]
  · intro h1 h2 h3
    have hss : startStep env = (false, [VmCmd.startFast]) := by
      unfold startStep
      simp [h1, h2, h3]
    rw [hattempt, hss]
    constructor
    · rfl
    · simp [List.count_append, htr0, hwt0]

theorem c6_witness :
    (stopStep ⟨⟨true, ""⟩, ⟨true, ""⟩, ⟨false, "file is locked"⟩, ⟨false, "still locked"⟩⟩).1 = true ∧
    ((restart_vm_single_attempt 5 15
        ⟨⟨true, ""⟩, ⟨true, ""⟩, ⟨false, "file is locked"⟩, ⟨false, "still locked"⟩⟩).1 =
      CmdResult.success ⟨false, "still locked"⟩ ∧
      (restart_vm_single_attempt 5 15
        ⟨⟨true, ""⟩, ⟨true, ""⟩, ⟨false, "file is locked"⟩, ⟨false, "still locked"⟩⟩).2.count
          VmCmd.startStd = 1) :=
  ⟨by decide,
    (c6_start_lock_retry_once 5 15
      ⟨⟨true, ""⟩, ⟨true, ""⟩, ⟨false, "file is locked"⟩, ⟨false, "still locked"⟩⟩
      (by decide)).1 (by decide) (by decide)⟩

/-- C7: a stop response saying the VM is not powered on is treated as
stop success — the attempt proceeds to the wait and start steps (its
outcome is the start step's outcome) and no hard stop is issued. -/
theorem c7_not_powered_on_is_stop_success (rd ld : Nat) (env : AttemptEnv)
    (h1 : env.stopSoft.success = false)
    (h2 : lowerContains env.stopSoft.output "is not powered on" = true) :
    (restart_vm_single_attempt rd ld env).1 = (startStep env).1 ∧
    VmCmd.stopHard ∉ (restart_vm_single_attempt rd ld env).2 := by
  have hst : stopStep env = (true, [VmCmd.stopSoft]) := by
    unfold stopStep
    simp [h1, h2]
  have hattempt : restart_vm_single_attempt rd ld env =
      ((startStep env).1, [VmCmd.stopSoft] ++ waitStep rd ld ++ (startStep env).2) := by
    unfold restart_vm_single_attempt
    rw [hst]
  rw [hattempt]
  refine ⟨rfl, ?_⟩
  intro hmem
  rcases List.mem_append.mp hmem with hmem' | hmem'
  · rcases List.mem_append.mp hmem' with hmem'' | hmem''
    · simp at hmem''
    · have := waitStep_only_listCheck rd ld _ hmem''
      cases this
  · rcases startStep_trace_cases env with h | h <;> rw [h] at hmem' <;>
      simp at hmem'

theorem c7_witness :
    CmdResult.success ⟨false, "Error: The virtual machine is not powered on"⟩ = false ∧
    ((restart_vm_single_attempt 5 15
        ⟨⟨false, "Error: The virtual machine is not powered on"⟩, ⟨false, "x"⟩,
          ⟨true, ""⟩, ⟨true, ""⟩⟩).1 =
      (startStep ⟨⟨false, "Error: The virtual machine is not powered on"⟩, ⟨false, "x"⟩,
          ⟨true, ""⟩, ⟨true, ""⟩⟩).1 ∧
      VmCmd.stopHard ∉
        (restart_vm_single_attempt 5 15
          ⟨⟨false, "Error: The virtual machine is not powered on"⟩, ⟨false, "x"⟩,
            ⟨true, ""⟩, ⟨true, ""⟩⟩).2) :=
  ⟨by decide,
    c7_not_powered_on_is_stop_success 5 15
      ⟨⟨false, "Error: The virtual machine is not powered on"⟩, ⟨false, "x"⟩,
        ⟨true, ""⟩, ⟨true, ""⟩⟩ (by decide) (by decide)⟩

/-- C10: a soft-stop failure whose output mentions neither
"is not powered on" nor "locked"/"busy" does not immediately fail the
attempt: the hard stop is issued, a hard-stop failure fails the attempt,
and on hard-stop success the attempt proceeds to the start step. -/
theorem c10_stop_fallback_hard_stop (rd ld : Nat) (env : AttemptEnv)
    (h1 : env.stopSoft.success = false)
    (h2 : lowerContains env.stopSoft.output "is not powered on" = false)
    (h3 : (lowerContains env.stopSoft.output "locked" ||
        lowerContains env.stopSoft.output "busy") = false) :
    VmCmd.stopHard ∈ (restart_vm_single_attempt rd ld env).2 ∧
    (env.stopHard.success = false → (restart_vm_single_attempt rd ld env).1 = false) ∧
    (env.stopHard.success = true →
      (restart_vm_single_attempt rd ld env).1 = (startStep env).1) := by
  have hst : stopStep env = (env.stopHard.success, [VmCmd.stopSoft, VmCmd.stopHard]) := by
    unfold stopStep
    simp [h1, h2, h3]
  by_cases hh : env.stopHard.success = true
  · have hattempt : restart_vm_single_attempt rd ld env =
        ((startStep env).1,
          [VmCmd.stopSoft, VmCmd.stopHard] ++ waitStep rd ld ++ (startStep env).2) := by
      unfold restart_vm_single_attempt
      rw [hst, hh]
    rw [hattempt]
    refine ⟨?_, ?_, fun _ => rfl⟩
    · simp
    · intro hfalse
      rw [hh] at hfalse
      cases hfalse
  · simp only [Bool.not_eq_true] at hh
    have hattempt : restart_vm_single_attempt rd ld env =
        (false, [VmCmd.stopSoft, VmCmd.stopHard]) := by
      unfold restart_vm_single_attempt
      rw [hst, hh]
    rw [hattempt]
    refine ⟨by simp, fun _ => rfl, ?_⟩
    intro htrue
    rw [hh] at htrue
    cases htrue

theorem c10_witness :
    CmdResult.success ⟨false, "General failure"⟩ = false ∧
    lowerContains "General failure" "is not powered on" = false ∧
    (lowerContains "General failure" "locked" || lowerContains "General failure" "busy") = false ∧
    (VmCmd.stopHard ∈
      (restart_vm_single_attempt 5 15
        ⟨⟨false, "General failure"⟩, ⟨true, ""⟩, ⟨true, ""⟩, ⟨true, ""⟩⟩).2 ∧
      (CmdResult.success ⟨true, ""⟩ = false →
        (restart_vm_single_attempt 5 15
          ⟨⟨false, "General failure"⟩, ⟨true, ""⟩, ⟨true, ""⟩, ⟨true, ""⟩⟩).1 = false) ∧
      (CmdResult.success ⟨true, ""⟩ = true →
        (restart_vm_single_attempt 5 15
          ⟨⟨false, "General failure"⟩, ⟨true, ""⟩, ⟨true, ""⟩, ⟨true, ""⟩⟩).1 =
        (startStep ⟨⟨false, "General failure"⟩, ⟨true, ""⟩, ⟨true, ""⟩, ⟨true, ""⟩⟩).1)) :=
  ⟨by decide, by decide, by decide,
    c10_stop_fallback_hard_stop 5 15
      ⟨⟨false, "General failure"⟩, ⟨true, ""⟩, ⟨true, ""⟩, ⟨true, ""⟩⟩
      (by decide) (by decide) (by decide)⟩

/-- Unrolling lemma for the retry loop: if the attempts numbered
`a, a+1, …, a+k-1` fail and attempt `a+k` succeeds, the loop started at
attempt `a` with `n` attempts remaining makes `min (k+1) n` attempts and
succeeds exactly when `k+1 ≤ n`. -/
theorem restart_vm_go_spec (rd ld : Nat) (envs : Nat → AttemptEnv) (k : Nat) :
    ∀ (n a : Nat),
    (∀ i, a ≤ i → i < a + k → (restart_vm_single_attempt rd ld (envs i)).1 = false) →
    (restart_vm_single_attempt rd ld (envs (a + k))).1 = true →
    restart_vm_go rd ld envs a n = (decide (k + 1 ≤ n), min (k + 1) n) := by
  induction k with
  | zero =>
    intro n a _ hsucc
    cases n with
    | zero => rfl
    | succ m =>
      unfold restart_vm_go
      rw [Nat.add_zero] at hsucc
      rw [hsucc]
      simp [Nat.succ_le_succ, Nat.min_def]
  | succ j ih =>
    intro n a hfail hsucc
    cases n with
    | zero => rfl
    | succ m =>
      unfold restart_vm_go
      have hfa : (restart_vm_single_attempt rd ld (envs a)).1 = false :=
        hfail a (Nat.le_refl a) (by omega)
      rw [hfa]
      have hfail' : ∀ i, a + 1 ≤ i → i < (a + 1) + j →
          (restart_vm_single_attempt rd ld (envs i)).1 = false := by
        intro i hi1 hi2
        exact hfail i (by omega) (by omega)
      have hsucc' : (restart_vm_single_attempt rd ld (envs ((a + 1) + j))).1 = true := by
        have : (a + 1) + j = a + (j + 1) := by omega
        rw [this]
        exact hsucc
      rw [ih m (a + 1) hfail' hsucc']
      simp only [Bool.false_eq_true, if_false]
      rw [Prod.mk.injEq]
      refine ⟨?_, ?_⟩
      · simp only [decide_eq_decide]
        omega
      · omega

/-- All attempts in the window fail: the loop makes every remaining
attempt and reports failure. -/
theorem restart_vm_go_all_fail (rd ld : Nat) (envs : Nat → AttemptEnv) :
    ∀ (n a : Nat),
    (∀ i, a ≤ i → i < a + n → (restart_vm_single_attempt rd ld (envs i)).1 = false) →
    restart_vm_go rd ld envs a n = (false, n) := by
  intro n
  induction n with
  | zero => intro a _; rfl
  | succ m ih =>
    intro a hfail
    unfold restart_vm_go
    have hfa : (restart_vm_single_attempt rd ld (envs a)).1 = false :=
      hfail a (Nat.le_refl a) (by omega)
    rw [hfa]
    have hfail' : ∀ i, a + 1 ≤ i → i < (a + 1) + m →
        (restart_vm_single_attempt rd ld (envs i)).1 = false := by
      intro i hi1 hi2
      exact hfail i (by omega) (by omega)
    rw [ih (a + 1) hfail']
    simp

/-- C5 as stated is false on the code: with zero failures before a
success (`k = 0`) and `max_retries = 3`, the orchestrator makes 1
attempt, not `min 0 3 = 0`. -/
theorem c5_counterexample :
    (restart_vm 5 15 3
        (fun _ => ⟨⟨true, ""⟩, ⟨true, ""⟩, ⟨true, ""⟩, ⟨true, ""⟩⟩)).2 ≠
      min 0 3 := by decide

/-- C5 amended: if the first `k` attempts fail and attempt `k+1` would
succeed, `restart_vm` makes exactly `min (k+1) max_retries` attempts and
succeeds exactly when `k+1 ≤ max_retries`; in particular a success on an
attempt within the bound stops all further attempts. -/
theorem c5_attempt_count (rd ld maxRetries k : Nat) (envs : Nat → AttemptEnv)
    (hfail : ∀ i, 1 ≤ i → i ≤ k →
      (restart_vm_single_attempt rd ld (envs i)).1 = false)
    (hsucc : (restart_vm_single_attempt rd ld (envs (k + 1))).1 = true) :
    restart_vm rd ld maxRetries envs =
      (decide (k + 1 ≤ maxRetries), min (k + 1) maxRetries) := by
  unfold restart_vm
  refine restart_vm_go_spec rd ld envs k maxRetries 1 ?_ ?_
  · intro i hi1 hi2
    exact hfail i hi1 (by omega)
  · have : 1 + k = k + 1 := by omega
    rw [this]
    exact hsucc

theorem c5_witness :
    (∀ i, 1 ≤ i → i ≤ 1 →
      (restart_vm_single_attempt 5 15
        ((fun n => if n = 1 then
            (⟨⟨false, "e"⟩, ⟨false, "e"⟩, ⟨true, ""⟩, ⟨true, ""⟩⟩ : AttemptEnv)
          else ⟨⟨true, ""⟩, ⟨true, ""⟩, ⟨true, ""⟩, ⟨true, ""⟩⟩) i)).1 = false) ∧
    restart_vm 5 15 3
      (fun n => if n = 1 then
          (⟨⟨false, "e"⟩, ⟨false, "e"⟩, ⟨true, ""⟩, ⟨true, ""⟩⟩ : AttemptEnv)
        else ⟨⟨true, ""⟩, ⟨true, ""⟩, ⟨true, ""⟩, ⟨true, ""⟩⟩) =
      (decide (1 + 1 ≤ 3), min (1 + 1) 3) :=
  ⟨fun i h1 h2 => by
      have hi : i = 1 := Nat.le_antisymm h2 h1
      rw [hi]
      decide,
    c5_attempt_count 5 15 3 1
      (fun n => if n = 1 then
          (⟨⟨false, "e"⟩, ⟨false, "e"⟩, ⟨true, ""⟩, ⟨true, ""⟩⟩ : AttemptEnv)
        else ⟨⟨true, ""⟩, ⟨true, ""⟩, ⟨true, ""⟩, ⟨true, ""⟩⟩)
      (fun i h1 h2 => by
        have hi : i = 1 := Nat.le_antisymm h2 h1
        rw [hi]
        decide)
      (by decide)⟩

/-- C3: when every one of the `max_retries` attempts fails, `restart_vm`
reports overall failure and the main loop leaves the restart history
unchanged (`mark_vm_restarted` is not invoked for that VM). -/
theorem c3_all_fail_history_unchanged (rd ld maxRetries : Nat)
    (envs : Nat → AttemptEnv) (st : EventChecker) (now : ℚ) (vm_path : String)
    (hfail : ∀ i, 1 ≤ i → i ≤ maxRetries →
      (restart_vm_single_attempt rd ld (envs i)).1 = false) :
    (restart_vm rd ld maxRetries envs).1 = false ∧
    main_handle_restart rd ld maxRetries envs st now vm_path = (false, st) := by
  have hloop : restart_vm rd ld maxRetries envs = (false, maxRetries) := by
    unfold restart_vm
    refine restart_vm_go_all_fail rd ld envs maxRetries 1 ?_
    intro i hi1 hi2
    exact hfail i hi1 (by omega)
  refine ⟨by rw [hloop], ?_⟩
  unfold main_handle_restart
  rw [hloop]
  simp

theorem c3_witness :
    (∀ i, 1 ≤ i → i ≤ 3 →
      (restart_vm_single_attempt 5 15
        ((fun _ => (⟨⟨false, "e"⟩, ⟨false, "e"⟩, ⟨true, ""⟩, ⟨true, ""⟩⟩ : AttemptEnv)) i)).1 =
        false) ∧
    ((restart_vm 5 15 3
        (fun _ => (⟨⟨false, "e"⟩, ⟨false, "e"⟩, ⟨true, ""⟩, ⟨true, ""⟩⟩ : AttemptEnv))).1 =
      false ∧
    main_handle_restart 5 15 3
        (fun _ => (⟨⟨false, "e"⟩, ⟨false, "e"⟩, ⟨true, ""⟩, ⟨true, ""⟩⟩ : AttemptEnv))
        ⟨some "0001-01-01 00:00:00", [("b", 7)]⟩ 42 "C:\\vms\\a.vmx" =
      (false, ⟨some "0001-01-01 00:00:00", [("b", 7)]⟩)) :=
  ⟨fun i _ _ => by
      have h : (restart_vm_single_attempt 5 15
          (⟨⟨false, "e"⟩, ⟨false, "e"⟩, ⟨true, ""⟩, ⟨true, ""⟩⟩ : AttemptEnv)).1 =
          false := by decide
      exact h,
    c3_all_fail_history_unchanged 5 15 3
      (fun _ => (⟨⟨false, "e"⟩, ⟨false, "e"⟩, ⟨true, ""⟩, ⟨true, ""⟩⟩ : AttemptEnv))
      ⟨some "0001-01-01 00:00:00", [("b", 7)]⟩ 42 "C:\\vms\\a.vmx"
      (fun i _ _ => by
        have h : (restart_vm_single_attempt 5 15
            (⟨⟨false, "e"⟩, ⟨false, "e"⟩, ⟨true, ""⟩, ⟨true, ""⟩⟩ : AttemptEnv)).1 =
            false := by decide
        exact h)⟩

